import Mathlib

/-!
Verification of the `bati-web` chat interface.

The repository contains two near-duplicate single-page chat applications
(one with a mock in-memory reply generator, one with an HTTP network
client) plus a theme-synchronisation listener.  This file gives a shallow
embedding of the message data model, the composer submission handler
(`handleSend`), the two reply producers (`mockAgentReply` and
`sendToBackend`), the bubble renderer, and the theme listener
(`applyTheme` / `ThemeSync`), and proves the behavioural properties of the
specification about them.
-/

namespace BatiWeb

/-- The sender of a message: `type Role = "user" | "agent"`. -/
inductive Role where
  | user
  | agent
deriving DecidableEq, Repr

/-- A chat message record:
`type Message = { id, role, text, createdAt }`.
Identifiers (`crypto.randomUUID()`) are modelled as natural numbers drawn
from a fresh-identifier counter. -/
structure Message where
  id : Nat
  role : Role
  text : String
  createdAt : Nat
deriving DecidableEq, Repr

/-- The state of one chat page view.  `messages` is the `useState`
message store, `input` the composer text field, `pending` the in-flight
reply-producer invocations (a mock timer callback or an HTTP exchange,
of type `π` depending on the variant), `nextId` the fresh-identifier
counter, and `now` the current clock reading (`Date.now()`). -/
structure ChatState (π : Type) where
  messages : List Message
  input : String
  pending : List π
  nextId : Nat
  now : Nat
deriving DecidableEq

/-- The initial greeting message installed by `useState<Message[]>([...])`. -/
def greetingText : String :=
  "Hi! I'm Bati. Tell me what you want to make and I'll plan a batch job for you. ✨"

/-- The greeting message record (identifier 0, session start time 0). -/
def greetingMsg : Message :=
  { id := 0, role := Role.agent, text := greetingText, createdAt := 0 }

/-- The initial chat state: one agent greeting, empty composer, nothing
in flight. -/
def initState (π : Type) : ChatState π :=
  { messages := [greetingMsg], input := "", pending := [], nextId := 1, now := 0 }

/-! ### The mock reply generator (`mockAgentReply`) -/

/-- `String.prototype.trim()`: strip leading and trailing whitespace. -/
def jsTrim (s : String) : String :=
  ⟨((s.data.dropWhile Char.isWhitespace).reverse.dropWhile Char.isWhitespace).reverse⟩

/-- Case-insensitive literal-word test, the meaning of `/word/i.test(s)`
for a plain ASCII word `pat`: the word occurs as a contiguous infix of
the lowercased text. -/
def testI (s pat : String) : Bool :=
  decide (pat.toList <:+: s.toList.map Char.toLower)

/-- `/generate|make|create/i.test(text)` — the "action" keyword set. -/
def actionTest (text : String) : Bool :=
  testI text "generate" || testI text "make" || testI text "create"

/-- `/(image|poster|promo|batch|gallery|variant|ig|tiktok|facebook)/i.test(text)`
— the "subject" keyword set. -/
def subjectTest (text : String) : Bool :=
  testI text "image" || testI text "poster" || testI text "promo" ||
  testI text "batch" || testI text "gallery" || testI text "variant" ||
  testI text "ig" || testI text "tiktok" || testI text "facebook"

/-- `looksLikeBatch`: both keyword sets match. -/
def looksLikeBatch (text : String) : Bool :=
  actionTest text && subjectTest text

/-- The fixed multi-line plan pushed onto `planLines` when
`looksLikeBatch` holds. -/
def planLines : List String :=
  ["Plan:",
   "• Seeds: detect from context or ask you to upload",
   "• Sizes: 1080×1080 (IG), 1080×1920 (TikTok)",
   "• Count: 8",
   "• Overlay: headline + optional quote",
   "Say “create batch” to enqueue a mock job (we’ll wire the backend next)."]

/-- `const acknowledgement = `Got it: "${text}". I can create a batch job
or answer questions.`` -/
def acknowledgement (text : String) : String :=
  "Got it: \"" ++ text ++ "\". I can create a batch job or answer questions."

/-- The list of lines assembled by `mockAgentReply` before joining:
`[acknowledgement, ...(planLines.length ? ["", ...planLines] : [])]`. -/
def replyLines (text : String) : List String :=
  [acknowledgement text] ++ (if looksLikeBatch text then [""] ++ planLines else [])

/-- `Array.prototype.join("\n")`. -/
def joinNL : List String → String
  | [] => ""
  | [s] => s
  | s :: rest => s ++ "\n" ++ joinNL rest

/-- The text of the agent message produced by `mockAgentReply` for a
given input. -/
def mockAgentReplyText (text : String) : String :=
  joinNL (replyLines text)

/-- Split a character sequence at newline characters into its lines
(the empty sequence has one empty line). -/
def splitOnNl (cs : List Char) : List (List Char) :=
  match cs with
  | [] => [[]]
  | c :: rest =>
    if c = '\n' then [] :: splitOnNl rest
    else
      match splitOnNl rest with
      | [] => [[c]]
      | l :: ls => (c :: l) :: ls

/-- `line` occurs literally as one of the newline-separated lines of `s`. -/
def hasLine (s line : String) : Bool :=
  decide (line.toList ∈ splitOnNl s.toList)

/-! ### The composer submission handler (`handleSend`) -/

/-- `handleSend`: trim the input; on an empty result do nothing
(`if (!text) return`), otherwise append exactly one user message with a
fresh identifier and the current timestamp, clear the input field, and
hand the trimmed text to the reply producer (one new `pending` entry,
built by `mkPending`).  Shared verbatim by both variants; they differ
only in the reply producer invoked. -/
def handleSend {π : Type} (mkPending : String → π) (st : ChatState π) : ChatState π :=
  let text := jsTrim st.input
  if text = "" then st
  else
    { st with
      messages := st.messages ++
        [{ id := st.nextId, role := Role.user, text := text, createdAt := st.now }],
      input := "",
      nextId := st.nextId + 1,
      pending := st.pending ++ [mkPending text] }

/-! ### The mock variant as a transition system -/

/-- Events of the mock variant: typing into the composer (`setInput`),
submitting the form (`handleSend`), the 400 ms mock timer firing
(`deliver`), and the clock advancing. -/
inductive MockEvent where
  | setInput (s : String)
  | submit
  | deliver
  | tick (dt : Nat)

/-- One step of the mock variant.  `deliver` fires the oldest pending
`setTimeout` callback, appending the agent message built by
`mockAgentReply` (timers of a fixed 400 ms delay complete in FIFO
order). -/
def mockStep (st : ChatState String) : MockEvent → ChatState String
  | MockEvent.setInput s => { st with input := s }
  | MockEvent.submit => handleSend id st
  | MockEvent.deliver =>
    match st.pending with
    | [] => st
    | t :: rest =>
      { st with
        messages := st.messages ++
          [{ id := st.nextId, role := Role.agent, text := mockAgentReplyText t,
             createdAt := st.now }],
        nextId := st.nextId + 1,
        pending := rest }
  | MockEvent.tick dt => { st with now := st.now + dt }

/-- The states a mock-variant session can reach from the initial state. -/
inductive ReachableMock : ChatState String → Prop where
  | init : ReachableMock (initState String)
  | step {st : ChatState String} (h : ReachableMock st) (e : MockEvent) :
      ReachableMock (mockStep st e)

/-! ### The network variant (`sendToBackend`) -/

/-- The hardcoded local endpoint of the network strategy. -/
def chatEndpoint : String := "http://127.0.0.1:8000/chat/turn"

/-- The JSON request body `JSON.stringify({ message: text })`, modelled
structurally: one field `message` holding the raw message text. -/
structure ReqBody where
  message : String
deriving DecidableEq

/-- One HTTP request as issued by `fetch(...)` in `sendToBackend`. -/
structure NetRequest where
  url : String
  httpMethod : String
  contentType : String
  body : ReqBody
deriving DecidableEq

/-- The single request `sendToBackend` issues for a submitted text. -/
def mkRequest (text : String) : NetRequest :=
  { url := chatEndpoint, httpMethod := "POST",
    contentType := "application/json", body := { message := text } }

/-- The outcome of one `fetch` exchange: either a response arrived with
some status code and (parsed) `reply` field, or the transport (or JSON
parsing) threw an exception whose message text is `msg`. -/
inductive NetOutcome where
  | response (status : Nat) (reply : String)
  | throwErr (msg : String)

/-- `res.ok`: the status code is in the 2xx range. -/
def statusOk (status : Nat) : Bool :=
  200 ≤ status && status < 300

/-- The text of the message `sendToBackend` appends for a given outcome:
the `reply` field on a 2xx status; otherwise the synthesized error text
`⚠️ Error: ${err.message}` where a bad status throws
`new Error(`HTTP ${res.status}`)`. -/
def sendToBackendText : NetOutcome → String
  | NetOutcome.response status reply =>
    if statusOk status then reply
    else "⚠️ Error: " ++ ("HTTP " ++ toString status)
  | NetOutcome.throwErr msg => "⚠️ Error: " ++ msg

/-- Events of the network variant; `deliver o` resolves the oldest
in-flight exchange with outcome `o`. -/
inductive NetEvent where
  | setInput (s : String)
  | submit
  | deliver (o : NetOutcome)
  | tick (dt : Nat)

/-- One step of the network variant.  Submission issues exactly one POST
request; resolution appends exactly one agent (reply or error) message
and never retries. -/
def netStep (st : ChatState NetRequest) : NetEvent → ChatState NetRequest
  | NetEvent.setInput s => { st with input := s }
  | NetEvent.submit => handleSend mkRequest st
  | NetEvent.deliver o =>
    match st.pending with
    | [] => st
    | _r :: rest =>
      { st with
        messages := st.messages ++
          [{ id := st.nextId, role := Role.agent, text := sendToBackendText o,
             createdAt := st.now }],
        nextId := st.nextId + 1,
        pending := rest }
  | NetEvent.tick dt => { st with now := st.now + dt }

/-- The states a network-variant session can reach. -/
inductive ReachableNet : ChatState NetRequest → Prop where
  | init : ReachableNet (initState NetRequest)
  | step {st : ChatState NetRequest} (h : ReachableNet st) (e : NetEvent) :
      ReachableNet (netStep st e)

/-! ### The bubble renderer (`ChatBubble`) -/

/-- One rendered chat bubble: `justify-end` (right aligned) for the
user, `justify-start` for the agent, with the message text. -/
structure Bubble where
  justifyEnd : Bool
  text : String
deriving DecidableEq

/-- `ChatBubble`: presentational mapping from role and text to a bubble. -/
def chatBubble (role : Role) (text : String) : Bubble :=
  { justifyEnd := role = Role.user, text := text }

/-- `messages.map((m) => <ChatBubble key={m.id} role={m.role} text={m.text} />)`. -/
def renderMessages (msgs : List Message) : List Bubble :=
  msgs.map (fun m => chatBubble m.role m.text)

/-! ### Theme synchronisation (`main.tsx`) -/

/-- The document state touched by `applyTheme`: the class list of
`document.documentElement` and its `style.colorScheme` property. -/
structure DocState where
  classes : List String
  colorScheme : String
deriving DecidableEq

/-- `DOMTokenList.add`: append the token unless already present. -/
def addClass (cs : List String) (c : String) : List String :=
  if c ∈ cs then cs else cs ++ [c]

/-- `DOMTokenList.remove`: delete every occurrence of the token. -/
def removeClass (cs : List String) (c : String) : List String :=
  cs.filter (fun x => x ≠ c)

/-- `applyTheme`: `"dark"` adds the `dark` class and sets
`colorScheme = 'dark'`; anything else (the `'light'` branch) removes it
and sets `colorScheme = 'light'`. -/
def applyTheme (theme : String) (d : DocState) : DocState :=
  if theme = "dark" then
    { classes := addClass d.classes "dark", colorScheme := "dark" }
  else
    { classes := removeClass d.classes "dark", colorScheme := "light" }

/-- A browser `StorageEvent` as seen by the listener: `key` and
`newValue` are nullable strings. -/
structure StorageEvent where
  key : Option String
  newValue : Option String
deriving DecidableEq

/-- The `ThemeSync` storage listener: `if (e.key === 'theme' &&
(e.newValue === 'dark' || e.newValue === 'light')) applyTheme(e.newValue)`. -/
def onStorage (e : StorageEvent) (d : DocState) : DocState :=
  match e.key, e.newValue with
  | some k, some v =>
    if k = "theme" && (v = "dark" || v = "light") then applyTheme v d else d
  | _, _ => d

/-! ## Helper lemmas -/

theorem str_append_assoc (a b c : String) : a ++ b ++ c = a ++ (b ++ c) :=
  String.ext (by simp [String.data_append])

theorem str_append_empty (a : String) : a ++ "" = a :=
  String.ext (by simp [String.data_append])

/-- An accepted submission: the full effect of `handleSend` when the
trimmed input is non-empty. -/
theorem handleSend_accepted {π : Type} (mkPending : String → π) (st : ChatState π)
    (h : jsTrim st.input ≠ "") :
    handleSend mkPending st =
      { st with
        messages := st.messages ++
          [{ id := st.nextId, role := Role.user, text := jsTrim st.input,
             createdAt := st.now }],
        input := "",
        nextId := st.nextId + 1,
        pending := st.pending ++ [mkPending (jsTrim st.input)] } := by
  simp [handleSend, h]

/-- A rejected submission: `handleSend` is the identity when the trimmed
input is empty. -/
theorem handleSend_rejected {π : Type} (mkPending : String → π) (st : ChatState π)
    (h : jsTrim st.input = "") :
    handleSend mkPending st = st := by
  simp [handleSend, h]

theorem splitOnNl_ne_nil (cs : List Char) : splitOnNl cs ≠ [] := by
  cases cs with
  | nil => simp [splitOnNl]
  | cons c rest =>
    simp only [splitOnNl]
    split
    · simp
    · split <;> simp

theorem splitOnNl_eq_single {cs : List Char} (h : '\n' ∉ cs) : splitOnNl cs = [cs] := by
  induction cs with
  | nil => rfl
  | cons c rest ih =>
    have hc : c ≠ '\n' := fun e => h (e ▸ List.mem_cons_self c rest)
    have hr : '\n' ∉ rest := fun m => h (List.mem_cons_of_mem c m)
    simp [splitOnNl, hc, ih hr]

theorem splitOnNl_append {a : List Char} (b : List Char) (h : '\n' ∉ a) :
    splitOnNl (a ++ '\n' :: b) = a :: splitOnNl b := by
  induction a with
  | nil => simp [splitOnNl]
  | cons c rest ih =>
    have hc : c ≠ '\n' := fun e => h (e ▸ List.mem_cons_self c rest)
    have hr : '\n' ∉ rest := fun m => h (List.mem_cons_of_mem c m)
    simp [splitOnNl, hc, ih hr]

theorem data_joinNL_cons (s : String) (l : List String) (hl : l ≠ []) :
    (joinNL (s :: l)).data = s.data ++ '\n' :: (joinNL l).data := by
  cases l with
  | nil => exact absurd rfl hl
  | cons t ts =>
    show (s ++ "\n" ++ joinNL (t :: ts)).data = _
    simp [String.data_append]

theorem splitOnNl_joinNL (L : List String) (hL : L ≠ [])
    (h : ∀ s ∈ L, '\n' ∉ s.data) :
    splitOnNl (joinNL L).data = L.map String.data := by
  induction L with
  | nil => exact absurd rfl hL
  | cons s l ih =>
    cases l with
    | nil => exact splitOnNl_eq_single (h s (List.mem_cons_self s []))
    | cons t ts =>
      rw [data_joinNL_cons s (t :: ts) (by simp),
        splitOnNl_append _ (h s (List.mem_cons_self s (t :: ts))),
        ih (by simp) (fun x hx => h x (List.mem_cons_of_mem s hx))]
      rfl

theorem acknowledgement_data (text : String) :
    (acknowledgement text).data
      = "Got it: \"".data ++ text.data
          ++ "\". I can create a batch job or answer questions.".data := by
  simp [acknowledgement, String.data_append]

theorem acknowledgement_head (text : String) :
    (acknowledgement text).data.head? = some 'G' := by
  have h : "Got it: \"".data = 'G' :: "ot it: \"".data := by decide
  rw [acknowledgement_data, h]
  simp

/-! ## Claim theorems -/

/-- C1: every accepted composer submission (input non-empty after
trimming) appends exactly one user message to the message store
immediately and clears the input field; afterwards the reply producer
appends exactly one agent (or error) message, in both the mock and the
network variant. -/
theorem accepted_submission_one_exchange :
    (∀ st : ChatState String, jsTrim st.input ≠ "" →
      (mockStep st MockEvent.submit).messages
          = st.messages ++
              [{ id := st.nextId, role := Role.user, text := jsTrim st.input,
                 createdAt := st.now }]
        ∧ (mockStep st MockEvent.submit).input = ""
        ∧ (mockStep st MockEvent.submit).pending = st.pending ++ [jsTrim st.input])
    ∧ (∀ st : ChatState NetRequest, jsTrim st.input ≠ "" →
      (netStep st NetEvent.submit).messages
          = st.messages ++
              [{ id := st.nextId, role := Role.user, text := jsTrim st.input,
                 createdAt := st.now }]
        ∧ (netStep st NetEvent.submit).input = ""
        ∧ (netStep st NetEvent.submit).pending
            = st.pending ++ [mkRequest (jsTrim st.input)])
    ∧ (∀ (st : ChatState String) (t : String) (rest : List String),
        st.pending = t :: rest →
      (mockStep st MockEvent.deliver).messages
          = st.messages ++
              [{ id := st.nextId, role := Role.agent, text := mockAgentReplyText t,
                 createdAt := st.now }]
        ∧ (mockStep st MockEvent.deliver).pending = rest)
    ∧ (∀ (st : ChatState NetRequest) (r : NetRequest) (rest : List NetRequest)
        (o : NetOutcome), st.pending = r :: rest →
      (netStep st (NetEvent.deliver o)).messages
          = st.messages ++
              [{ id := st.nextId, role := Role.agent, text := sendToBackendText o,
                 createdAt := st.now }]
        ∧ (netStep st (NetEvent.deliver o)).pending = rest) := by
  refine ⟨fun st h => ?_, fun st h => ?_, fun st t rest hp => ?_, fun st r rest o hp => ?_⟩
  · rw [show mockStep st MockEvent.submit = handleSend id st from rfl,
      handleSend_accepted id st h]
    exact ⟨rfl, rfl, rfl⟩
  · rw [show netStep st NetEvent.submit = handleSend mkRequest st from rfl,
      handleSend_accepted mkRequest st h]
    exact ⟨rfl, rfl, rfl⟩
  · simp [mockStep, hp]
  · simp [netStep, hp]

/-- Witness for C1: a concrete accepted submission in the mock variant. -/
theorem accepted_submission_one_exchange_witness :
    (mockStep { messages := [greetingMsg], input := " hi ", pending := [],
                nextId := 1, now := 5 } MockEvent.submit).messages
      = [greetingMsg] ++
          [{ id := 1, role := Role.user,
             text := jsTrim " hi ", createdAt := 5 }] :=
  (accepted_submission_one_exchange.1
    { messages := [greetingMsg], input := " hi ", pending := [],
      nextId := 1, now := 5 } (by decide)).1

/-- C4: submitting an empty or whitespace-only string is a no-op in both
variants: the state (message store, pending reply producers, input field
contents) is completely unchanged. -/
theorem empty_submission_noop :
    (∀ st : ChatState String, jsTrim st.input = "" →
      mockStep st MockEvent.submit = st)
    ∧ (∀ st : ChatState NetRequest, jsTrim st.input = "" →
      netStep st NetEvent.submit = st) :=
  ⟨fun st h => handleSend_rejected id st h,
   fun st h => handleSend_rejected mkRequest st h⟩

/-- Witness for C4: a whitespace-only submission leaves a concrete state
untouched. -/
theorem empty_submission_noop_witness :
    mockStep { messages := [greetingMsg], input := "  \t ", pending := [],
               nextId := 1, now := 0 } MockEvent.submit
      = { messages := [greetingMsg], input := "  \t ", pending := [],
          nextId := 1, now := 0 } :=
  empty_submission_noop.1
    { messages := [greetingMsg], input := "  \t ", pending := [],
      nextId := 1, now := 0 } (by decide)

/-- C5: the network strategy issues a single POST request to the fixed
local address with JSON body `{ message: <raw text> }`, and on a 2xx
response appends exactly one agent message whose text is the `reply`
field of the response body. -/
theorem network_request_and_success_reply :
    (∀ st : ChatState NetRequest, jsTrim st.input ≠ "" →
      (netStep st NetEvent.submit).pending
        = st.pending ++ [mkRequest (jsTrim st.input)])
    ∧ (∀ text : String,
        (mkRequest text).url = "http://127.0.0.1:8000/chat/turn"
        ∧ (mkRequest text).httpMethod = "POST"
        ∧ (mkRequest text).body = { message := text })
    ∧ (∀ (st : ChatState NetRequest) (r : NetRequest) (rest : List NetRequest)
        (status : Nat) (reply : String), st.pending = r :: rest →
        statusOk status = true →
      (netStep st (NetEvent.deliver (NetOutcome.response status reply))).messages
        = st.messages ++
            [{ id := st.nextId, role := Role.agent, text := reply,
               createdAt := st.now }]) := by
  refine ⟨fun st h => ?_, fun text => ⟨rfl, rfl, rfl⟩,
    fun st r rest status reply hp hok => ?_⟩
  · rw [show netStep st NetEvent.submit = handleSend mkRequest st from rfl,
      handleSend_accepted mkRequest st h]
  · simp [netStep, hp, sendToBackendText, hok]

/-- Witness for C5: a concrete 200-status exchange appends the server's
reply verbatim. -/
theorem network_request_and_success_reply_witness :
    (netStep { messages := [greetingMsg], input := "", pending := [mkRequest "hi"],
               nextId := 2, now := 9 }
        (NetEvent.deliver (NetOutcome.response 200 "hello there"))).messages
      = [greetingMsg] ++
          [{ id := 2, role := Role.agent, text := "hello there", createdAt := 9 }] :=
  network_request_and_success_reply.2.2
    { messages := [greetingMsg], input := "", pending := [mkRequest "hi"],
      nextId := 2, now := 9 }
    (mkRequest "hi") [] 200 "hello there" rfl (by decide)

/-- Every mock-variant step leaves the message store unchanged or
appends exactly one message at the end. -/
theorem mockStep_messages_shape (st : ChatState String) (e : MockEvent) :
    (mockStep st e).messages = st.messages
      ∨ ∃ m : Message, (mockStep st e).messages = st.messages ++ [m] := by
  cases e with
  | setInput s => exact Or.inl rfl
  | tick dt => exact Or.inl rfl
  | submit =>
    by_cases h : jsTrim st.input = ""
    · exact Or.inl (by rw [show mockStep st MockEvent.submit = handleSend id st from rfl,
        handleSend_rejected id st h])
    · exact Or.inr ⟨_, by rw [show mockStep st MockEvent.submit = handleSend id st from rfl,
        handleSend_accepted id st h]⟩
  | deliver =>
    cases hp : st.pending with
    | nil => exact Or.inl (by simp [mockStep, hp])
    | cons t rest =>
      right
      refine ⟨{ id := st.nextId, role := Role.agent, text := mockAgentReplyText t, createdAt := st.now }, ?_⟩
      simp [mockStep, hp]

/-- Every network-variant step leaves the message store unchanged or
appends exactly one message at the end. -/
theorem netStep_messages_shape (st : ChatState NetRequest) (e : NetEvent) :
    (netStep st e).messages = st.messages
      ∨ ∃ m : Message, (netStep st e).messages = st.messages ++ [m] := by
  cases e with
  | setInput s => exact Or.inl rfl
  | tick dt => exact Or.inl rfl
  | submit =>
    by_cases h : jsTrim st.input = ""
    · exact Or.inl (by rw [show netStep st NetEvent.submit = handleSend mkRequest st from rfl,
        handleSend_rejected mkRequest st h])
    · exact Or.inr ⟨_, by rw [show netStep st NetEvent.submit = handleSend mkRequest st from rfl,
        handleSend_accepted mkRequest st h]⟩
  | deliver o =>
    cases hp : st.pending with
    | nil => exact Or.inl (by simp [netStep, hp])
    | cons r rest =>
      right
      refine ⟨{ id := st.nextId, role := Role.agent, text := sendToBackendText o, createdAt := st.now }, ?_⟩
      simp [netStep, hp]

/-- C6: every step of either variant leaves the message store unchanged
(no store update) or appends exactly one message at the end, so the
previous message sequence is always a prefix of the new one and no
message is ever mutated or deleted; the renderer displays messages in
insertion order. -/
theorem message_store_append_only :
    (∀ (st : ChatState String) (e : MockEvent),
        (mockStep st e).messages = st.messages
      ∨ ∃ m : Message, (mockStep st e).messages = st.messages ++ [m])
    ∧ (∀ (st : ChatState NetRequest) (e : NetEvent),
        (netStep st e).messages = st.messages
      ∨ ∃ m : Message, (netStep st e).messages = st.messages ++ [m])
    ∧ (∀ msgs : List Message,
        (renderMessages msgs).map Bubble.text = msgs.map Message.text) :=
  ⟨mockStep_messages_shape, netStep_messages_shape,
   fun msgs => by simp [renderMessages, chatBubble]⟩

/-- C3: a network exchange ending in a non-2xx status or a thrown
transport exception appends exactly one chat message; its text starts
with the warning marker and contains the failure's message text (for a
bad status, the numeric status code); the pending exchange is consumed
without retry and the rest of the state (input field, clock) is
unchanged. -/
theorem network_failure_single_bubble :
    ∀ (st : ChatState NetRequest) (r : NetRequest) (rest : List NetRequest),
      st.pending = r :: rest →
      (∀ (status : Nat) (reply : String), statusOk status = false →
        (netStep st (NetEvent.deliver (NetOutcome.response status reply))).messages
            = st.messages ++
                [{ id := st.nextId, role := Role.agent,
                   text := "⚠️ Error: " ++ ("HTTP " ++ toString status),
                   createdAt := st.now }]
          ∧ (∃ t, "⚠️ Error: " ++ ("HTTP " ++ toString status) = "⚠️" ++ t)
          ∧ (∃ p q, "⚠️ Error: " ++ ("HTTP " ++ toString status)
              = p ++ toString status ++ q)
          ∧ (netStep st (NetEvent.deliver (NetOutcome.response status reply))).input
              = st.input
          ∧ (netStep st (NetEvent.deliver (NetOutcome.response status reply))).pending
              = rest
          ∧ (netStep st (NetEvent.deliver (NetOutcome.response status reply))).now
              = st.now)
      ∧ (∀ msg : String,
        (netStep st (NetEvent.deliver (NetOutcome.throwErr msg))).messages
            = st.messages ++
                [{ id := st.nextId, role := Role.agent,
                   text := "⚠️ Error: " ++ msg, createdAt := st.now }]
          ∧ (∃ t, "⚠️ Error: " ++ msg = "⚠️" ++ t)
          ∧ (∃ p q, "⚠️ Error: " ++ msg = p ++ msg ++ q)
          ∧ (netStep st (NetEvent.deliver (NetOutcome.throwErr msg))).input = st.input
          ∧ (netStep st (NetEvent.deliver (NetOutcome.throwErr msg))).pending = rest
          ∧ (netStep st (NetEvent.deliver (NetOutcome.throwErr msg))).now = st.now) := by
  intro st r rest hp
  have hmark : ("⚠️ Error: " : String) = "⚠️" ++ " Error: " := by decide
  constructor
  · intro status reply hbad
    refine ⟨by simp [netStep, hp, sendToBackendText, hbad], ?_, ?_, ?_, ?_, ?_⟩
    · exact ⟨" Error: " ++ ("HTTP " ++ toString status),
        by rw [hmark, str_append_assoc]⟩
    · refine ⟨"⚠️ Error: " ++ "HTTP ", "", ?_⟩
      rw [str_append_empty, str_append_assoc]
    · simp [netStep, hp]
    · simp [netStep, hp]
    · simp [netStep, hp]
  · intro msg
    refine ⟨by simp [netStep, hp, sendToBackendText], ?_, ?_, ?_, ?_, ?_⟩
    · exact ⟨" Error: " ++ msg, by rw [hmark, str_append_assoc]⟩
    · exact ⟨"⚠️ Error: ", "", by rw [str_append_empty]⟩
    · simp [netStep, hp]
    · simp [netStep, hp]
    · simp [netStep, hp]

/-- Witness for C3: a concrete 500-status exchange appends one warning
bubble mentioning the status code. -/
theorem network_failure_single_bubble_witness :
    (netStep { messages := [greetingMsg], input := "x", pending := [mkRequest "hi"],
               nextId := 2, now := 3 }
        (NetEvent.deliver (NetOutcome.response 500 "ignored"))).messages
      = [greetingMsg] ++
          [{ id := 2, role := Role.agent,
             text := "⚠️ Error: " ++ ("HTTP " ++ toString 500), createdAt := 3 }] :=
  ((network_failure_single_bubble
    { messages := [greetingMsg], input := "x", pending := [mkRequest "hi"],
      nextId := 2, now := 3 }
    (mkRequest "hi") [] rfl).1 500 "ignored" (by decide)).1

/-- C8: a storage-change notification for the reserved key `theme` with
new value `dark` (respectively `light`) makes the listener apply dark
(respectively light) mode to the whole document. -/
theorem theme_sync_applies_mode :
    ∀ d : DocState,
      ("dark" ∈ (onStorage { key := some "theme", newValue := some "dark" } d).classes
        ∧ (onStorage { key := some "theme", newValue := some "dark" } d).colorScheme
            = "dark")
      ∧ ("dark" ∉ (onStorage { key := some "theme", newValue := some "light" } d).classes
        ∧ (onStorage { key := some "theme", newValue := some "light" } d).colorScheme
            = "light") := by
  intro d
  refine ⟨⟨?_, ?_⟩, ⟨?_, ?_⟩⟩
  · show "dark" ∈ (applyTheme "dark" d).classes
    by_cases hm : "dark" ∈ d.classes
    · simp [applyTheme, addClass, hm]
    · simp [applyTheme, addClass, hm]
  · rfl
  · show "dark" ∉ (applyTheme "light" d).classes
    simp [applyTheme, removeClass]
  · rfl

/-- C10: a storage event whose key is not `theme`, or whose new value is
neither `dark` nor `light`, leaves the document state completely
unchanged. -/
theorem storage_event_frame (e : StorageEvent) (d : DocState)
    (h : e.key ≠ some "theme" ∨ (e.newValue ≠ some "dark" ∧ e.newValue ≠ some "light")) :
    onStorage e d = d := by
  rcases e with ⟨k, v⟩
  cases k with
  | none => rfl
  | some k =>
    cases v with
    | none => rfl
    | some v =>
      have hc : (k = "theme" && (v = "dark" || v = "light")) = false := by
        rcases h with h | ⟨h1, h2⟩
        · have hk : k ≠ "theme" := fun e => h (by rw [e])
          simp [hk]
        · have hv1 : v ≠ "dark" := fun e => h1 (by rw [e])
          have hv2 : v ≠ "light" := fun e => h2 (by rw [e])
          simp [hv1, hv2]
      simp [onStorage, hc]

/-- Witness for C10: a storage event for an unrelated key is a no-op on
a concrete document state. -/
theorem storage_event_frame_witness :
    onStorage { key := some "volume", newValue := some "dark" }
        { classes := ["app"], colorScheme := "light" }
      = { classes := ["app"], colorScheme := "light" } :=
  storage_event_frame
    { key := some "volume", newValue := some "dark" }
    { classes := ["app"], colorScheme := "light" }
    (Or.inl (by decide))

/-! ## Session invariants: identifier freshness and the initial greeting -/

/-- All message identifiers are pairwise distinct and below the fresh
counter. -/
def IdInv (msgs : List Message) (n : Nat) : Prop :=
  msgs.Pairwise (fun a b => a.id ≠ b.id) ∧ ∀ m ∈ msgs, m.id < n

theorem idInv_append {msgs : List Message} {n : Nat} (h : IdInv msgs n)
    (role : Role) (text : String) (ts : Nat) :
    IdInv (msgs ++ [{ id := n, role := role, text := text, createdAt := ts }]) (n + 1) := by
  obtain ⟨hpw, hlt⟩ := h
  constructor
  · rw [List.pairwise_append]
    refine ⟨hpw, List.pairwise_singleton _ _, ?_⟩
    intro a ha b hb
    have hb' : b = { id := n, role := role, text := text, createdAt := ts } := by
      simpa using hb
    subst hb'
    exact Nat.ne_of_lt (hlt a ha)
  · intro m hm
    rcases List.mem_append.mp hm with hm | hm
    · exact Nat.lt_succ_of_lt (hlt m hm)
    · have : m = { id := n, role := role, text := text, createdAt := ts } := by
        simpa using hm
      subst this
      exact Nat.lt_succ_self n

theorem mockStep_idInv {st : ChatState String} (e : MockEvent)
    (h : IdInv st.messages st.nextId) :
    IdInv (mockStep st e).messages (mockStep st e).nextId := by
  cases e with
  | setInput s => exact h
  | tick dt => exact h
  | submit =>
    by_cases he : jsTrim st.input = ""
    · rw [show mockStep st MockEvent.submit = handleSend id st from rfl,
        handleSend_rejected id st he]
      exact h
    · rw [show mockStep st MockEvent.submit = handleSend id st from rfl,
        handleSend_accepted id st he]
      exact idInv_append h _ _ _
  | deliver =>
    cases hp : st.pending with
    | nil => simpa [mockStep, hp] using h
    | cons t rest =>
      have := idInv_append h Role.agent (mockAgentReplyText t) st.now
      simpa [mockStep, hp] using this

theorem netStep_idInv {st : ChatState NetRequest} (e : NetEvent)
    (h : IdInv st.messages st.nextId) :
    IdInv (netStep st e).messages (netStep st e).nextId := by
  cases e with
  | setInput s => exact h
  | tick dt => exact h
  | submit =>
    by_cases he : jsTrim st.input = ""
    · rw [show netStep st NetEvent.submit = handleSend mkRequest st from rfl,
        handleSend_rejected mkRequest st he]
      exact h
    · rw [show netStep st NetEvent.submit = handleSend mkRequest st from rfl,
        handleSend_accepted mkRequest st he]
      exact idInv_append h _ _ _
  | deliver o =>
    cases hp : st.pending with
    | nil => simpa [netStep, hp] using h
    | cons r rest =>
      have := idInv_append h Role.agent (sendToBackendText o) st.now
      simpa [netStep, hp] using this

theorem idInv_init (π : Type) : IdInv (initState π).messages (initState π).nextId := by
  constructor
  · exact List.pairwise_singleton _ _
  · intro m hm
    have : m = greetingMsg := by simpa [initState] using hm
    subst this
    exact Nat.lt_succ_self 0

theorem reachableMock_idInv {st : ChatState String} (h : ReachableMock st) :
    IdInv st.messages st.nextId := by
  induction h with
  | init => exact idInv_init String
  | step _ e ih => exact mockStep_idInv e ih

theorem reachableNet_idInv {st : ChatState NetRequest} (h : ReachableNet st) :
    IdInv st.messages st.nextId := by
  induction h with
  | init => exact idInv_init NetRequest
  | step _ e ih => exact netStep_idInv e ih

/-- C7: in every reachable state of either variant, all message
identifiers created during the session (initial greeting, user messages,
agent replies, error messages) are pairwise distinct, modelling the
identifier generator as a fresh-identifier counter. -/
theorem message_ids_unique :
    (∀ st : ChatState String, ReachableMock st →
      st.messages.Pairwise (fun a b => a.id ≠ b.id))
    ∧ (∀ st : ChatState NetRequest, ReachableNet st →
      st.messages.Pairwise (fun a b => a.id ≠ b.id)) :=
  ⟨fun _ h => (reachableMock_idInv h).1, fun _ h => (reachableNet_idInv h).1⟩

/-- Witness for C7: a concrete session (type a message, submit, let the
mock reply arrive) has pairwise-distinct identifiers. -/
theorem message_ids_unique_witness :
    (mockStep (mockStep (mockStep (initState String) (MockEvent.setInput "hi"))
        MockEvent.submit) MockEvent.deliver).messages.Pairwise
      (fun a b => a.id ≠ b.id) :=
  message_ids_unique.1 _
    (ReachableMock.step
      (ReachableMock.step (ReachableMock.step ReachableMock.init (MockEvent.setInput "hi"))
        MockEvent.submit)
      MockEvent.deliver)

/-- The first message of the store is always the initial greeting. -/
theorem headInv_append {msgs : List Message} (m : Message)
    (h : msgs.head? = some greetingMsg) :
    (msgs ++ [m]).head? = some greetingMsg := by
  cases msgs with
  | nil => simp at h
  | cons a rest =>
    simp only [List.head?_cons, Option.some.injEq] at h
    subst h
    rfl

theorem mockStep_head {st : ChatState String} (e : MockEvent)
    (h : st.messages.head? = some greetingMsg) :
    (mockStep st e).messages.head? = some greetingMsg := by
  rcases mockStep_messages_shape st e with hsame | ⟨m, hap⟩
  · rw [hsame]; exact h
  · rw [hap]; exact headInv_append m h

theorem netStep_head {st : ChatState NetRequest} (e : NetEvent)
    (h : st.messages.head? = some greetingMsg) :
    (netStep st e).messages.head? = some greetingMsg := by
  rcases netStep_messages_shape st e with hsame | ⟨m, hap⟩
  · rw [hsame]; exact h
  · rw [hap]; exact headInv_append m h

/-- C9: in every reachable state of either variant the message list is
non-empty, its first message is the initial agent greeting, and that
greeting has the agent role. -/
theorem initial_greeting_first :
    (∀ st : ChatState String, ReachableMock st →
      st.messages ≠ []
        ∧ st.messages.head? = some greetingMsg
        ∧ st.messages.head?.map Message.role = some Role.agent)
    ∧ (∀ st : ChatState NetRequest, ReachableNet st →
      st.messages ≠ []
        ∧ st.messages.head? = some greetingMsg
        ∧ st.messages.head?.map Message.role = some Role.agent) := by
  have hmock : ∀ st : ChatState String, ReachableMock st →
      st.messages.head? = some greetingMsg := by
    intro st h
    induction h with
    | init => rfl
    | step _ e ih => exact mockStep_head e ih
  have hnet : ∀ st : ChatState NetRequest, ReachableNet st →
      st.messages.head? = some greetingMsg := by
    intro st h
    induction h with
    | init => rfl
    | step _ e ih => exact netStep_head e ih
  constructor
  · intro st h
    refine ⟨?_, hmock st h, ?_⟩
    · intro hnil
      have hh := hmock st h
      rw [hnil] at hh
      simp at hh
    · rw [hmock st h]
      rfl
  · intro st h
    refine ⟨?_, hnet st h, ?_⟩
    · intro hnil
      have hh := hnet st h
      rw [hnil] at hh
      simp at hh
    · rw [hnet st h]
      rfl

/-- Witness for C9: after one full mock exchange the first message is
still the agent greeting. -/
theorem initial_greeting_first_witness :
    (mockStep (mockStep (initState String) (MockEvent.setInput "yo"))
        MockEvent.submit).messages.head? = some greetingMsg :=
  (initial_greeting_first.1 _
    (ReachableMock.step
      (ReachableMock.step ReachableMock.init (MockEvent.setInput "yo"))
      MockEvent.submit)).2.1

/-! ## The plan section of the mock reply -/

theorem looksLikeBatch_eq (text : String) :
    looksLikeBatch text = (actionTest text && subjectTest text) := rfl

theorem replyLines_ne_nil (text : String) : replyLines text ≠ [] := by
  simp [replyLines]

theorem replyLines_no_newline {text : String} (h : '\n' ∉ text.data) :
    ∀ s ∈ replyLines text, '\n' ∉ s.data := by
  intro s hs
  rcases List.mem_append.mp hs with h1 | h2
  · have he : s = acknowledgement text := by simpa using h1
    subst he
    rw [acknowledgement_data]
    simp only [List.mem_append, not_or]
    exact ⟨⟨by decide, h⟩, by decide⟩
  · by_cases hb : looksLikeBatch text = true
    · rw [if_pos hb] at h2
      rcases List.mem_append.mp h2 with h3 | h4
      · have he : s = "" := by simpa using h3
        subst he
        decide
      · fin_cases h4 <;> decide
    · rw [if_neg hb] at h2
      simp at h2

/-- The mock reply for a newline-free input contains `Plan:` as a
literal line exactly when both keyword sets match. -/
theorem mock_plan_line_iff_no_newline (text : String) (h : '\n' ∉ text.data) :
    hasLine (mockAgentReplyText text) "Plan:" = true
      ↔ (actionTest text && subjectTest text) = true := by
  have hsplit : splitOnNl (mockAgentReplyText text).data
      = (replyLines text).map String.data :=
    splitOnNl_joinNL _ (replyLines_ne_nil text) (replyLines_no_newline h)
  simp only [hasLine, decide_eq_true_eq]
  show "Plan:".data ∈ splitOnNl (mockAgentReplyText text).data
    ↔ (actionTest text && subjectTest text) = true
  rw [hsplit]
  cases hcond : (actionTest text && subjectTest text) with
  | true =>
    constructor
    · intro _
      rfl
    · intro _
      have hmem : ("Plan:" : String) ∈ replyLines text := by
        simp [replyLines, looksLikeBatch_eq, hcond, planLines]
      exact List.mem_map_of_mem String.data hmem
  | false =>
    have hlines : replyLines text = [acknowledgement text] := by
      simp [replyLines, looksLikeBatch_eq, hcond]
    rw [hlines]
    constructor
    · intro hmem
      exfalso
      have heq : "Plan:".data = (acknowledgement text).data := by simpa using hmem
      have h1 := acknowledgement_head text
      rw [← heq] at h1
      exact absurd h1 (by decide)
    · intro hfalse
      exact absurd hfalse (by simp)

/-- Counterexample for C2 as stated: the input `"make\nPlan:\n"` matches
the action keyword set but not the subject set, yet the mock reply
contains the literal line `Plan:` because the input is echoed verbatim
inside the acknowledgement. -/
theorem mock_plan_line_iff_cex :
    ¬ (hasLine (mockAgentReplyText "make\nPlan:\n") "Plan:" = true
        ↔ (actionTest "make\nPlan:\n" && subjectTest "make\nPlan:\n") = true) := by
  decide

/-- Witness for the amended C2: a plan-triggering input yields a reply
with the `Plan:` line. -/
theorem mock_plan_line_iff_witness :
    hasLine (mockAgentReplyText "generate a poster") "Plan:" = true :=
  (mock_plan_line_iff_no_newline "generate a poster" (by decide)).mpr (by decide)

end BatiWeb
